import Mathlib

/-!
Shallow embedding of the scene lifecycle and uniform-update core of the
signal-to-noise repository: the reveal state machine of src/noise.rs, the
scene manager and event channel of src/scene_manager.rs and
src/sub_event_handler.rs, and the generic shader scene of
src/shader_scene.rs.  f32 scalars are modelled as exact rationals wherever
the code stores and branches on them, and as reals where transcendental
functions (exp, sqrt) produce the value.
-/

/-- A 2-component vector, mirroring glam's Vec2 as used by the scenes. -/
structure Vec2 where
  x : ℚ
  y : ℚ
deriving DecidableEq, Repr

/-- Componentwise division, mirroring glam's Div for Vec2
(used for `location / res` in src/noise.rs line 178). -/
def Vec2.cdiv (a b : Vec2) : Vec2 :=
  ⟨a.x / b.x, a.y / b.y⟩

/-- glam's Vec2::distance: planar Euclidean distance
(src/noise.rs line 179 `params.signal_origin.distance(location)`). -/
noncomputable def Vec2.dist (a b : Vec2) : ℝ :=
  Real.sqrt (((a.x - b.x) ^ 2 + (a.y - b.y) ^ 2 : ℚ))

/-- The reveal curve from src/noise.rs lines 21-23 (same body in
src/util.rs and the standalone mains): 1 - e^(-x). -/
noncomputable def inv_exp (x : ℝ) : ℝ :=
  1 - Real.exp (-x)

/-- Noise distribution kind, src/noise.rs lines 25-33 (repr(u32), Gaussian = 0). -/
inductive Distribution
  | Gaussian
  | Pareto
  | Triangle
  | Uniform
deriving DecidableEq, Repr

/-- The u32 discriminant of a Distribution (repr(u32) starting at 0). -/
def Distribution.toU32 : Distribution → ℕ
  | .Gaussian => 0
  | .Pareto => 1
  | .Triangle => 2
  | .Uniform => 3

/-- Which scene the application starts in (src/scene_manager.rs uses
crate::StartingScene; variants from the construction match there). -/
inductive StartingScene
  | MainMenu
  | Noise1D
  | Noise2D
deriving DecidableEq, Repr

/-- The immutable per-run configuration.  The struct itself lives in the
crate's CLI module, which is not among the source files; its fields and
their uses are taken from the destructuring in Noise::new
(src/noise.rs lines 102-115) and from SceneManager::new
(src/scene_manager.rs line 36).  The record path is irrelevant to the
claims and omitted; signal_shape is kept as its u32 cast. -/
structure Args where
  cell_spacing : ℚ
  signal_width : ℚ
  noise_floor : ℚ
  noise_deviation : ℚ
  noise_deviation_cap : ℚ
  frame_time : ℚ
  signal_ramp_duration : ℚ
  signal_max_strength : ℚ
  signal_shape : ℕ
  noise_distribution : Distribution
  noise_pareto_distribution_parameter : ℚ
  starting_scene : StartingScene
deriving DecidableEq, Repr

/-- The scene mode, src/noise.rs lines 86-91 (repr(u32), OneDimensional = 1). -/
inductive NoiseMode
  | OneDimensional
  | TwoDimensional
deriving DecidableEq, Repr

/-- The u32 discriminant of a NoiseMode. -/
def NoiseMode.toU32 : NoiseMode → ℕ
  | .OneDimensional => 1
  | .TwoDimensional => 2

/-- The packed shader-uniform record of the noise scene,
src/noise.rs lines 41-56.  signal_strength is the one field whose value
can come from the transcendental reveal curve, so it is a real. -/
structure Uniforms where
  resolution : Vec2
  cell_spacing : ℚ
  signal_origin : Vec2
  signal_strength : ℝ
  signal_width : ℚ
  signal_shape : ℕ
  noise_seed : ℚ
  noise_floor : ℚ
  noise_deviation : ℚ
  noise_deviation_cap : ℚ
  noise_distribution : ℕ
  noise_pareto_distribution_parameter : ℚ
  dimensions : ℕ

/-- The record of a registered click, src/noise.rs lines 58-63.
distance is produced by Vec2::distance (a square root), hence a real;
time is the elapsed Duration in seconds. -/
structure ClickDecision where
  location : Vec2
  distance : ℝ
  time : ℚ

/-- The mutable per-round state, src/noise.rs lines 65-76. -/
structure GameParams where
  start_time : ℚ
  time : ℚ
  noise_frame : ℚ
  frame_length : ℚ
  signal_progression : ℝ
  signal_origin : Vec2
  signal_ramp_duration : ℚ
  signal_max_strength : ℚ
  click_location : Option ClickDecision

/-- GameParams::reset, src/noise.rs lines 79-84: sets start_time to the
current time, draws a fresh random signal origin, clears the click.
The two rand::random() draws are the rnd argument. -/
def GameParams.reset (p : GameParams) (now : ℚ) (rnd : Vec2) : GameParams :=
  { p with
    start_time := now
    signal_origin := rnd
    click_location := none }

/-- The noise test scene, src/noise.rs lines 93-98.  The ShaderScene
wrapper contributes only its uniform record to the scene state; the
compiled shader handle itself is an opaque GPU resource. -/
structure Noise where
  uniforms : Uniforms
  params : GameParams
  args : Args
  mode : NoiseMode

/-- Noise::new, src/noise.rs lines 101-142: builds the uniform record
from the configuration, the game params from defaults plus the timing
fields, then resets the round.  now is ctx.time.time_since_start() and
rnd the pair of rand::random() draws consumed by the reset.  There is no
validation of any configuration field. -/
def Noise.new (args : Args) (mode : NoiseMode) (now : ℚ) (rnd : Vec2) : Noise :=
  let uniforms : Uniforms :=
    { resolution := ⟨0, 0⟩
      cell_spacing := args.cell_spacing
      signal_origin := ⟨0, 0⟩
      signal_strength := 0
      signal_width := args.signal_width
      signal_shape := args.signal_shape
      noise_seed := 0
      noise_floor := args.noise_floor
      noise_deviation := args.noise_deviation
      noise_deviation_cap := args.noise_deviation_cap
      noise_distribution := args.noise_distribution.toU32
      noise_pareto_distribution_parameter := args.noise_pareto_distribution_parameter
      dimensions := mode.toU32 }
  let params : GameParams :=
    { start_time := 0
      time := 0
      noise_frame := 0
      frame_length := args.frame_time
      signal_progression := 0
      signal_origin := ⟨0, 0⟩
      signal_ramp_duration := args.signal_ramp_duration
      signal_max_strength := args.signal_max_strength
      click_location := none }
  { uniforms := uniforms
    params := params.reset now rnd
    args := args
    mode := mode }

/-- The slice of host input a Noise::update tick consumes
(time since start, drawable resolution, pointer position, button and key
edges) together with the rand::random() draws a reset would consume. -/
structure InputState where
  now : ℚ
  res : Vec2
  mousePos : Vec2
  leftJustPressed : Bool
  rightJustPressed : Bool
  spaceJustPressed : Bool
  rnd : Vec2

/-- The per-frame-change recomputation of signal_progression,
src/noise.rs lines 167-174: guarded division through the reveal curve
when the ramp is positive, instant full strength otherwise. -/
noncomputable def progressionUpdate (noise_frame frame_length ramp maxs : ℚ) : ℝ :=
  if 0 < ramp then
    inv_exp (((noise_frame * frame_length) / (ramp * maxs) : ℚ))
  else 1

/-- Noise::update, src/noise.rs lines 146-234.  Sets elapsed time and the
resolution uniform; while resolved (click present) waits for a space or
right-click edge and then resets the round and restores the configured
noise floor and deviation; while searching recomputes the discretized
noise frame and (on a change) the signal progression, registers a left
click with its normalized location and Euclidean distance, zeroing the
noise floor and deviation, and finally refreshes the signal uniforms. -/
noncomputable def Noise.update (st : Noise) (inp : InputState) : Noise :=
  let time : ℚ := inp.now - st.params.start_time
  if (st.params.click_location.isSome : Bool) then
    if inp.spaceJustPressed || inp.rightJustPressed then
      { st with
        params := { (st.params.reset inp.now inp.rnd) with time := time }
        uniforms := { st.uniforms with
          resolution := inp.res
          noise_floor := st.args.noise_floor
          noise_deviation := st.args.noise_deviation } }
    else
      { st with
        params := { st.params with time := time }
        uniforms := { st.uniforms with resolution := inp.res } }
  else
    let new_noise_frame : ℚ := (⌊time / st.params.frame_length⌋ : ℤ)
    let noise_frame : ℚ :=
      if new_noise_frame ≠ st.params.noise_frame then new_noise_frame
      else st.params.noise_frame
    let signal_progression : ℝ :=
      if new_noise_frame ≠ st.params.noise_frame then
        progressionUpdate new_noise_frame st.params.frame_length
          st.params.signal_ramp_duration st.params.signal_max_strength
      else st.params.signal_progression
    if inp.leftJustPressed then
      let location : Vec2 := inp.mousePos.cdiv inp.res
      let distance : ℝ := st.params.signal_origin.dist location
      { st with
        params := { st.params with
          time := time
          noise_frame := noise_frame
          signal_progression := signal_progression
          click_location := some ⟨location, distance, time⟩ }
        uniforms := { st.uniforms with
          resolution := inp.res
          noise_floor := 0
          noise_deviation := 0
          signal_origin := st.params.signal_origin
          noise_seed := noise_frame
          signal_strength := signal_progression * st.params.signal_max_strength } }
    else
      { st with
        params := { st.params with
          time := time
          noise_frame := noise_frame
          signal_progression := signal_progression }
        uniforms := { st.uniforms with
          resolution := inp.res
          signal_origin := st.params.signal_origin
          noise_seed := noise_frame
          signal_strength := signal_progression * st.params.signal_max_strength } }

/-- The round state of the spec; in the code it is exactly the presence
of the click decision (src/noise.rs line 152 branches on it). -/
inductive RoundState
  | Searching
  | Resolved
deriving DecidableEq, Repr

/-- The round state the scene is in. -/
def Noise.state (st : Noise) : RoundState :=
  if st.params.click_location.isSome then RoundState.Resolved else RoundState.Searching

/-- The round invariant of the spec: the click decision is present iff
the round is resolved; the noise floor and deviation uniforms equal the
configured values iff the round is searching; while resolved they are
held at zero. -/
def roundInv (st : Noise) : Prop :=
  (st.params.click_location.isSome = true ↔ st.state = RoundState.Resolved) ∧
  ((st.uniforms.noise_floor = st.args.noise_floor ∧
      st.uniforms.noise_deviation = st.args.noise_deviation) ↔
    st.state = RoundState.Searching) ∧
  (st.state = RoundState.Resolved →
    st.uniforms.noise_floor = 0 ∧ st.uniforms.noise_deviation = 0)

/-- The click distance of the standalone 1D scene,
src/noise_1d.rs line 139: absolute x offset of the click from the signal
center, divided by the smaller screen dimension. -/
def noise1dClickDistance (signal_center locx norm : ℚ) : ℚ :=
  |signal_center - locx| / norm

/-- A scene-switch request, src/scene_manager.rs lines 18-23. -/
inductive SceneManagerEvent
  | MainMenu
  | Noise1D
  | Noise2D
deriving DecidableEq, Repr

/-- The main menu scene, src/main_menu.rs lines 15-44: a UI manager
holding two buttons whose payloads are the scene-switch events; it holds
no gameplay state of its own. -/
structure MainMenu where
  buttonEvents : List SceneManagerEvent
deriving DecidableEq, Repr

/-- MainMenu::new, src/main_menu.rs lines 21-43: the 2D Noise button then
the 1D Noise button. -/
def MainMenu.new : MainMenu :=
  ⟨[SceneManagerEvent.Noise2D, SceneManagerEvent.Noise1D]⟩

/-- The polymorphic active scene handle (Box of dyn SubEventHandler in
src/scene_manager.rs line 26), modelled as a closed sum of the scene
implementations the manager constructs. -/
inductive Scene
  | mainMenu (mm : MainMenu)
  | noise (n : Noise)

/-- The context data a scene construction consumes: the monotonic time
since start and the rand::random() draws of the constructed round. -/
structure Ctx where
  now : ℚ
  rnd : Vec2

/-- The scene construction performed for one scene-switch event,
src/scene_manager.rs lines 93-117 (the three match arms of
handle_event) and lines 36-46 (the identical arms of new). -/
def constructScene (args : Args) (ctx : Ctx) : SceneManagerEvent → Scene
  | .MainMenu => Scene.mainMenu MainMenu.new
  | .Noise1D => Scene.noise (Noise.new args NoiseMode.OneDimensional ctx.now ctx.rnd)
  | .Noise2D => Scene.noise (Noise.new args NoiseMode.TwoDimensional ctx.now ctx.rnd)

/-- The scene manager, src/scene_manager.rs lines 25-30: the active
scene, the shared configuration, and the in-process event channel whose
pending contents are the FIFO queue. -/
structure SceneManager where
  scene : Scene
  args : Args
  queue : List SceneManagerEvent

/-- SceneManager::handle_event, src/scene_manager.rs lines 93-117: the
requested replacement scene is constructed unconditionally and installed
over the current one; nothing else of the manager changes. -/
def SceneManager.handleEvent (sm : SceneManager) (ctx : Ctx) (ev : SceneManagerEvent) :
    SceneManager :=
  { sm with scene := constructScene sm.args ctx ev }

/-- ReceiverExt::poll_event over the channel, src/util.rs lines 421-429:
takes the oldest pending event off the queue, or none when empty. -/
def SceneManager.pollEvent (sm : SceneManager) : Option SceneManagerEvent × SceneManager :=
  match sm.queue with
  | [] => (none, sm)
  | e :: rest => (some e, { sm with queue := rest })

/-- EventReceiver::handle_events, src/sub_event_handler.rs lines 56-61:
the while-let drain loop, polling and handling until the queue is empty. -/
def SceneManager.handleEvents (sm : SceneManager) (ctx : Ctx) : SceneManager :=
  match h : sm.pollEvent with
  | (none, sm') => sm'
  | (some e, sm') => (sm'.handleEvent ctx e).handleEvents ctx
termination_by sm.queue.length
decreasing_by
  simp only [SceneManager.pollEvent] at h
  cases hq : sm.queue with
  | nil => rw [hq] at h; simp at h
  | cons a rest =>
    rw [hq] at h
    simp at h
    simp [SceneManager.handleEvent, ← h.2, hq]

/-- The default SubEventHandler::quit_event body,
src/sub_event_handler.rs lines 14-16: Ok(false), allowing the quit. -/
def defaultQuitEvent : Bool :=
  false

/-- The quit policy of the active scene: neither MainMenu nor Noise
overrides quit_event, so both use the trait default. -/
def Scene.quitEvent : Scene → Bool
  | .mainMenu _ => defaultQuitEvent
  | .noise _ => defaultQuitEvent

/-- SceneManager::quit_event, src/scene_manager.rs lines 78-87: when
Escape is currently held it returns true (cancel the quit); otherwise it
delegates to the active scene.  escHeld is
ctx.keyboard.is_logical_key_pressed(Escape). -/
def SceneManager.quitEvent (sm : SceneManager) (escHeld : Bool) : Bool :=
  if escHeld then true else sm.scene.quitEvent

/-- The shader a canvas currently draws with: the default no-op shader or
a scene's custom fragment shader identified by its handle. -/
inductive ActiveShader
  | default
  | custom (id : ℕ)
deriving DecidableEq, Repr

/-- An axis-aligned rectangle, mirroring ggez's Rect. -/
structure GgRect where
  x : ℚ
  y : ℚ
  w : ℚ
  h : ℚ
deriving DecidableEq, Repr

/-- The canvas-level drawing state a ShaderScene::draw call touches: the
active shader, the bound shader params, the uniform records pushed to the
GPU, and the rectangles drawn (each tagged with the shader active when it
was drawn). -/
structure CanvasState (U : Type) where
  shader : ActiveShader
  boundParams : Option ℕ
  pushed : List U
  draws : List (ActiveShader × GgRect)

/-- Canvas::set_shader. -/
def CanvasState.setShader {U : Type} (c : CanvasState U) (id : ℕ) : CanvasState U :=
  { c with shader := ActiveShader.custom id }

/-- ShaderParams::set_uniforms: pushes the record to the GPU. -/
def CanvasState.setUniforms {U : Type} (c : CanvasState U) (u : U) : CanvasState U :=
  { c with pushed := c.pushed ++ [u] }

/-- Canvas::set_shader_params: binds the scene's param object. -/
def CanvasState.setShaderParams {U : Type} (c : CanvasState U) (id : ℕ) : CanvasState U :=
  { c with boundParams := some id }

/-- Drawing a filled rectangle mesh on the canvas under its currently
active shader. -/
def CanvasState.drawRect {U : Type} (c : CanvasState U) (r : GgRect) : CanvasState U :=
  { c with draws := c.draws ++ [(c.shader, r)] }

/-- Canvas::set_default_shader. -/
def CanvasState.setDefaultShader {U : Type} (c : CanvasState U) : CanvasState U :=
  { c with shader := ActiveShader.default }

/-- The generic shader scene, src/shader_scene.rs lines 22-29: the
uniform record plus the built shader and params handles (kept as an id). -/
structure ShaderSceneSt (U : Type) where
  uniforms : U
  shaderId : ℕ

/-- ShaderScene::draw, src/shader_scene.rs lines 54-68: bind the scene's
shader, push the current uniform record, bind the params, draw one
rectangle covering the full drawable resolution, restore the default
shader. -/
def ShaderSceneSt.draw {U : Type} (s : ShaderSceneSt U) (res : Vec2) (c : CanvasState U) :
    CanvasState U :=
  ((((c.setShader s.shaderId).setUniforms s.uniforms).setShaderParams
      s.shaderId).drawRect ⟨0, 0, res.x, res.y⟩).setDefaultShader

/-- A sample configuration with the CLI defaults of the standalone main
(grid spacing 0.05, signal width 0.25, noise floor 0.25, deviation 0.05,
cap 3, ramp 180 s, max strength 1) and frame time 1 s. -/
def sampleArgs : Args :=
  { cell_spacing := 1/20
    signal_width := 1/4
    noise_floor := 1/4
    noise_deviation := 1/20
    noise_deviation_cap := 3
    frame_time := 1
    signal_ramp_duration := 180
    signal_max_strength := 1
    signal_shape := 0
    noise_distribution := Distribution.Gaussian
    noise_pareto_distribution_parameter := 0
    starting_scene := StartingScene.MainMenu }

/-- A sample construction context: time 0, random draws (1/2, 1/2). -/
def sampleCtx : Ctx :=
  ⟨0, ⟨1/2, 1/2⟩⟩

/-- A freshly constructed 2D noise scene over the sample configuration. -/
def sampleNoise : Noise :=
  Noise.new sampleArgs NoiseMode.TwoDimensional 0 ⟨1/2, 1/2⟩

/-- A scene manager whose active scene is the sample noise scene. -/
def sampleManager : SceneManager :=
  { scene := Scene.noise sampleNoise, args := sampleArgs, queue := [] }

/-- A scene manager with the events Noise1D then MainMenu pending. -/
def sampleManagerQueued : SceneManager :=
  { scene := Scene.mainMenu MainMenu.new
    args := sampleArgs
    queue := [SceneManagerEvent.Noise1D, SceneManagerEvent.MainMenu] }

/-- The sample configuration with noise floor and deviation both zero. -/
def zeroFloorArgs : Args :=
  { sampleArgs with noise_floor := 0, noise_deviation := 0 }

/-- A fresh 2D noise scene over the all-zero noise configuration. -/
def zeroFloorNoise : Noise :=
  Noise.new zeroFloorArgs NoiseMode.TwoDimensional 0 ⟨1/2, 1/2⟩

/-- A tick with a left click at the screen center of a 1x1-normalized
resolution, no other input. -/
def clickInp : InputState :=
  { now := 0
    res := ⟨1, 1⟩
    mousePos := ⟨0, 0⟩
    leftJustPressed := true
    rightJustPressed := false
    spaceJustPressed := false
    rnd := ⟨0, 0⟩ }

/-- A fresh 1D-mode noise scene whose signal origin is (1/2, 1/2). -/
def oneDNoise : Noise :=
  Noise.new sampleArgs NoiseMode.OneDimensional 0 ⟨1/2, 1/2⟩

/-- A tick with a left click at pixel (1, 0) of a 2x2 resolution, so the
normalized click is (1/2, 0): same x as the signal origin, offset in y. -/
def oneDClickInp : InputState :=
  { now := 0
    res := ⟨2, 2⟩
    mousePos := ⟨1, 0⟩
    leftJustPressed := true
    rightJustPressed := false
    spaceJustPressed := false
    rnd := ⟨0, 0⟩ }

/-- The sample configuration with signal_ramp_duration zero. -/
def rampZeroArgs : Args :=
  { sampleArgs with signal_ramp_duration := 0 }

/-- A fresh 2D noise scene over the zero-ramp configuration. -/
def rampZeroNoise : Noise :=
  Noise.new rampZeroArgs NoiseMode.TwoDimensional 0 ⟨1/2, 1/2⟩

/-- An idle tick (no buttons) at elapsed time 1/2. -/
def idleHalfInp : InputState :=
  { now := 1/2
    res := ⟨1, 1⟩
    mousePos := ⟨0, 0⟩
    leftJustPressed := false
    rightJustPressed := false
    spaceJustPressed := false
    rnd := ⟨0, 0⟩ }

/-- An idle tick (no buttons) at elapsed time 1. -/
def idleOneInp : InputState :=
  { idleHalfInp with now := 1 }

/-- An idle tick (no buttons) at elapsed time 2. -/
def idleTwoInp : InputState :=
  { idleHalfInp with now := 2 }

/-- The sample configuration with frame_time (frame_length) zero. -/
def zeroFrameArgs : Args :=
  { sampleArgs with frame_time := 0 }

/-- A fresh 2D noise scene over the zero-frame-length configuration. -/
def zeroFrameNoise : Noise :=
  Noise.new zeroFrameArgs NoiseMode.TwoDimensional 0 ⟨1/2, 1/2⟩

/-- Game params mid-round: frame index 3 with a nonzero progression,
as left by a previous round. -/
def midRoundParams : GameParams :=
  { start_time := 0
    time := 3
    noise_frame := 0
    frame_length := 1
    signal_progression := 37
    signal_origin := ⟨1/2, 1/2⟩
    signal_ramp_duration := 180
    signal_max_strength := 1
    click_location := none }

/-- A noise scene carrying the mid-round params. -/
def midRoundNoise : Noise :=
  { uniforms := sampleNoise.uniforms
    params := midRoundParams
    args := sampleArgs
    mode := NoiseMode.TwoDimensional }

/-- C5: the reveal curve inv_exp(x) = 1 - e^(-x) satisfies inv_exp 0 = 0,
is strictly increasing for positive arguments, and tends to 1 at
infinity. -/
theorem inv_exp_reveal_curve :
    inv_exp 0 = 0 ∧
    (∀ x y : ℝ, 0 < x → x < y → inv_exp x < inv_exp y) ∧
    Filter.Tendsto inv_exp Filter.atTop (nhds 1) := by
  refine ⟨by simp [inv_exp], ?_, ?_⟩
  · intro x y _ hxy
    have h := Real.exp_lt_exp.mpr (neg_lt_neg hxy)
    simp only [inv_exp]
    linarith
  · have h := (Real.tendsto_exp_neg_atTop_nhds_zero).const_sub 1
    simpa [inv_exp] using h

/-- Witness for C5 at concrete inputs 1 and 2. -/
theorem inv_exp_reveal_curve_holds : inv_exp 1 < inv_exp 2 :=
  inv_exp_reveal_curve.2.1 1 2 one_pos one_lt_two

/-- C7: the scene manager's quit_event reports do-not-quit (true) exactly
when Escape is currently held; when Escape is not held it returns the
active scene's own quit_event, whose default implementation (used by
every scene here) allows the quit. -/
theorem quit_event_escape (sm : SceneManager) (escHeld : Bool) :
    (sm.quitEvent escHeld = true ↔ escHeld = true) ∧
    (escHeld = false → sm.quitEvent escHeld = sm.scene.quitEvent) ∧
    sm.scene.quitEvent = defaultQuitEvent ∧ defaultQuitEvent = false := by
  have hs : sm.scene.quitEvent = defaultQuitEvent := by
    cases sm.scene <;> rfl
  cases escHeld <;>
    simp [SceneManager.quitEvent, hs, defaultQuitEvent]

/-- Witness for C7 at a concrete manager with Escape not held. -/
theorem quit_event_escape_holds :
    sampleManager.quitEvent false = sampleManager.scene.quitEvent :=
  (quit_event_escape sampleManager false).2.1 rfl

/-- C8: every ShaderScene::draw pushes the current uniform record to the
GPU, draws exactly one rectangle covering the full drawable resolution
under the scene's shader, and leaves the canvas's active shader at the
default no-op shader regardless of its state before the call. -/
theorem shader_scene_draw_effect {U : Type} (s : ShaderSceneSt U) (res : Vec2)
    (c : CanvasState U) :
    (s.draw res c).shader = ActiveShader.default ∧
    (s.draw res c).pushed = c.pushed ++ [s.uniforms] ∧
    (s.draw res c).draws =
      c.draws ++ [(ActiveShader.custom s.shaderId, ⟨0, 0, res.x, res.y⟩)] := by
  refine ⟨rfl, rfl, rfl⟩

/-- C10: handle_event never consults the current scene: the replacement
is constructed fresh from the event alone, so even a MainMenu event
received while the main menu is already active rebuilds the menu, and a
noise event always yields a newly constructed scene with a fresh round. -/
theorem handle_event_fresh_construction (sm : SceneManager) (ctx : Ctx)
    (ev : SceneManagerEvent) (s : Scene) :
    (sm.handleEvent ctx ev).scene = constructScene sm.args ctx ev ∧
    (SceneManager.handleEvent { sm with scene := s } ctx ev).scene =
      (sm.handleEvent ctx ev).scene ∧
    (SceneManager.handleEvent { sm with scene := Scene.mainMenu MainMenu.new } ctx
        SceneManagerEvent.MainMenu).scene = Scene.mainMenu MainMenu.new ∧
    (sm.handleEvent ctx SceneManagerEvent.Noise1D).scene =
      Scene.noise (Noise.new sm.args NoiseMode.OneDimensional ctx.now ctx.rnd) ∧
    (Noise.new sm.args NoiseMode.OneDimensional ctx.now ctx.rnd).params.click_location =
      none := by
  refine ⟨rfl, rfl, rfl, rfl, rfl⟩

/-- Characterization of the drain loop: handle_events folds the pending
queue through scene construction, in order, and empties it. -/
theorem handleEvents_drain_aux (q : List SceneManagerEvent) :
    ∀ (sm : SceneManager) (ctx : Ctx), sm.queue = q →
      sm.handleEvents ctx =
        { scene := q.foldl (fun _ e => constructScene sm.args ctx e) sm.scene
          args := sm.args
          queue := [] } := by
  induction q with
  | nil =>
    intro sm ctx hq
    rw [SceneManager.handleEvents]
    split
    next sm' h =>
      simp [SceneManager.pollEvent, hq] at h
      cases sm
      simp_all
    next e sm' h =>
      simp [SceneManager.pollEvent, hq] at h
  | cons e rest ih =>
    intro sm ctx hq
    rw [SceneManager.handleEvents]
    split
    next sm' h =>
      simp [SceneManager.pollEvent, hq] at h
    next e' sm' h =>
      simp [SceneManager.pollEvent, hq] at h
      obtain ⟨he, hsm⟩ := h
      subst he
      subst hsm
      rw [ih _ ctx rfl]
      simp [SceneManager.handleEvent]

/-- C4: handle_events drains the whole pending queue in FIFO order,
constructing the replacement scene for each event in turn (the fold), so
the active scene after the tick is the one constructed for the last
enqueued event and no event is left unconsumed. -/
theorem handle_events_drains_fifo (sm : SceneManager) (ctx : Ctx) :
    (sm.handleEvents ctx).queue = [] ∧
    (sm.handleEvents ctx).scene =
      sm.queue.foldl (fun _ e => constructScene sm.args ctx e) sm.scene ∧
    ∀ (l : List SceneManagerEvent) (e : SceneManagerEvent), sm.queue = l ++ [e] →
      (sm.handleEvents ctx).scene = constructScene sm.args ctx e := by
  have h := handleEvents_drain_aux sm.queue sm ctx rfl
  refine ⟨by rw [h], by rw [h], ?_⟩
  intro l e hq
  rw [h]
  simp [hq, List.foldl_append]

/-- Witness for C4: enqueueing Noise1D then MainMenu within one tick
leaves the main menu active and the queue empty. -/
theorem handle_events_drains_fifo_holds :
    (sampleManagerQueued.handleEvents sampleCtx).scene =
      Scene.mainMenu MainMenu.new ∧
    (sampleManagerQueued.handleEvents sampleCtx).queue = [] :=
  ⟨(handle_events_drains_fifo sampleManagerQueued sampleCtx).2.2
      [SceneManagerEvent.Noise1D] SceneManagerEvent.MainMenu rfl,
    (handle_events_drains_fifo sampleManagerQueued sampleCtx).1⟩

/-- C9: GameParams::reset modifies only start_time, signal_origin and
click_location, leaving noise_frame and signal_progression at the
previous round's values; consequently an update tick of a searching
round whose discretized frame index equals the stored noise_frame leaves
signal_progression (and hence the shader's signal_strength) at the
previous round's value rather than restarting it. -/
theorem reset_keeps_progression :
    (∀ (p : GameParams) (now : ℚ) (rnd : Vec2),
      (p.reset now rnd).noise_frame = p.noise_frame ∧
      (p.reset now rnd).signal_progression = p.signal_progression ∧
      (p.reset now rnd).time = p.time ∧
      (p.reset now rnd).frame_length = p.frame_length ∧
      (p.reset now rnd).signal_ramp_duration = p.signal_ramp_duration ∧
      (p.reset now rnd).signal_max_strength = p.signal_max_strength ∧
      (p.reset now rnd).start_time = now ∧
      (p.reset now rnd).signal_origin = rnd ∧
      (p.reset now rnd).click_location = none) ∧
    (∀ (st : Noise) (inp : InputState),
      st.params.click_location = none →
      ((⌊(inp.now - st.params.start_time) / st.params.frame_length⌋ : ℤ) : ℚ) =
        st.params.noise_frame →
      (st.update inp).params.signal_progression = st.params.signal_progression ∧
      (st.update inp).uniforms.signal_strength =
        st.params.signal_progression * st.params.signal_max_strength) := by
  constructor
  · intro p now rnd
    exact ⟨rfl, rfl, rfl, rfl, rfl, rfl, rfl, rfl, rfl⟩
  · intro st inp hcl hframe
    by_cases hl : inp.leftJustPressed = true <;>
      simp [Noise.update, hcl, hframe, hl]

/-- Witness for C9: a searching round at frame index 0 with progression
37 updated at elapsed 1/2 (still frame 0) keeps progression 37. -/
theorem reset_keeps_progression_holds :
    (midRoundNoise.update idleHalfInp).params.signal_progression =
      midRoundNoise.params.signal_progression :=
  (reset_keeps_progression.2 midRoundNoise idleHalfInp rfl
    (by norm_num [idleHalfInp, midRoundNoise, midRoundParams])).1

/-- The round state is Resolved exactly when the click decision is present. -/
theorem state_resolved_iff (st : Noise) :
    st.state = RoundState.Resolved ↔ st.params.click_location.isSome = true := by
  cases h : st.params.click_location.isSome <;> simp [Noise.state, h]

/-- The round state is Searching exactly when the click decision is absent. -/
theorem state_searching_iff (st : Noise) :
    st.state = RoundState.Searching ↔ st.params.click_location.isSome = false := by
  cases h : st.params.click_location.isSome <;> simp [Noise.state, h]

/-- C1 (amended): the round invariant — click decision present iff
Resolved, noise floor and deviation uniforms equal the configured values
iff Searching, held at zero while Resolved — is established by
construction and preserved by every update tick (including the resets it
performs), provided the configured noise floor and deviation are not
both zero; when both are zero the uniforms trivially equal the configured
values while Resolved as well, which only weakens the iff to the two
one-directional implications. -/
theorem round_invariant_preserved :
    (∀ (args : Args) (mode : NoiseMode) (now : ℚ) (rnd : Vec2),
      roundInv (Noise.new args mode now rnd)) ∧
    (∀ (st : Noise) (inp : InputState),
      st.args.noise_floor ≠ 0 ∨ st.args.noise_deviation ≠ 0 →
      roundInv st → roundInv (st.update inp)) := by
  constructor
  · intro args mode now rnd
    simp [roundInv, Noise.new, Noise.state, GameParams.reset]
  · intro st inp hcfg hinv
    obtain ⟨h1, h2, h3⟩ := hinv
    rcases hcl : st.params.click_location with _ | d
    · have hflr := h2.mpr ((state_searching_iff st).mpr (by simp [hcl]))
      by_cases hl : inp.leftJustPressed = true
      · have hne : ¬(st.args.noise_floor = 0 ∧ st.args.noise_deviation = 0) := by
          rcases hcfg with h | h
          · exact fun hc => h hc.1
          · exact fun hc => h hc.2
        simp [Noise.update, roundInv, Noise.state, hcl, hl]
        intro hf hd
        exact absurd ⟨hf.symm, hd.symm⟩ hne
      · simp [Noise.update, roundInv, Noise.state, hcl, hl, hflr.1, hflr.2]
    · have hz := h3 ((state_resolved_iff st).mpr (by simp [hcl]))
      by_cases ht : (inp.spaceJustPressed || inp.rightJustPressed) = true
      · simp [Noise.update, roundInv, Noise.state, GameParams.reset, hcl, ht]
      · have hne : ¬(st.args.noise_floor = 0 ∧ st.args.noise_deviation = 0) := by
          rcases hcfg with h | h
          · exact fun hc => h hc.1
          · exact fun hc => h hc.2
        simp [Noise.update, roundInv, Noise.state, hcl, ht, hz.1, hz.2]
        intro hf hd
        exact absurd ⟨hf.symm, hd.symm⟩ hne

/-- Witness for C1 at the sample configuration (noise floor 1/4): the
invariant holds for the fresh scene and is preserved by a click tick. -/
theorem round_invariant_preserved_holds :
    roundInv (sampleNoise.update clickInp) :=
  round_invariant_preserved.2 sampleNoise clickInp
    (Or.inl (by norm_num [sampleNoise, Noise.new, sampleArgs]))
    (round_invariant_preserved.1 sampleArgs NoiseMode.TwoDimensional 0 ⟨1/2, 1/2⟩)

/-- C1 as stated is false at an explicit input: with configured noise
floor and deviation both zero, the invariant's iff (uniforms equal the
configured values iff Searching) holds for the fresh scene but is broken
by the resolving click, whose zeroed uniforms still equal the configured
values. -/
theorem round_invariant_cx :
    roundInv zeroFloorNoise ∧ ¬ roundInv (zeroFloorNoise.update clickInp) := by
  constructor
  · simp [roundInv, zeroFloorNoise, zeroFloorArgs, sampleArgs, Noise.new,
      GameParams.reset, Noise.state]
  · intro h
    obtain ⟨-, h2, -⟩ := h
    have hres : (zeroFloorNoise.update clickInp).uniforms.noise_floor = 0 ∧
        (zeroFloorNoise.update clickInp).uniforms.noise_deviation = 0 ∧
        (zeroFloorNoise.update clickInp).params.click_location.isSome = true ∧
        (zeroFloorNoise.update clickInp).args.noise_floor = 0 ∧
        (zeroFloorNoise.update clickInp).args.noise_deviation = 0 := by
      norm_num [Noise.update, zeroFloorNoise, zeroFloorArgs, sampleArgs, clickInp,
        Noise.new, GameParams.reset]
    have hsearch := h2.mp ⟨by rw [hres.1, hres.2.2.2.1], by rw [hres.2.1, hres.2.2.2.2]⟩
    have hresol := (state_resolved_iff _).mpr hres.2.2.1
    rw [hsearch] at hresol
    exact RoundState.noConfusion hresol

/-- C2 at the failing input: the unified noise scene in 1D mode records
the full planar Euclidean distance between the normalized click and the
signal origin (here 1/2, coming entirely from the hidden random y
offset), not the absolute x offset in normalized coordinates (here 0)
that the claim prescribes for 1D mode and that the standalone Noise1D
scene's formula computes. -/
theorem oneD_distance_records_euclidean :
    oneDNoise.mode = NoiseMode.OneDimensional ∧
    Option.map ClickDecision.distance
        (oneDNoise.update oneDClickInp).params.click_location = some (1/2 : ℝ) ∧
    |oneDNoise.params.signal_origin.x - oneDClickInp.mousePos.x / oneDClickInp.res.x| = 0 ∧
    noise1dClickDistance (oneDNoise.params.signal_origin.x * oneDClickInp.res.x)
      oneDClickInp.mousePos.x (min oneDClickInp.res.x oneDClickInp.res.y) = 0 := by
  refine ⟨rfl, ?_,
    by norm_num [oneDNoise, Noise.new, sampleArgs, GameParams.reset, oneDClickInp],
    by norm_num [noise1dClickDistance, oneDNoise, Noise.new, sampleArgs,
      GameParams.reset, oneDClickInp]⟩
  have hcl : (oneDNoise.update oneDClickInp).params.click_location =
      some ⟨⟨1/2, 0⟩, Vec2.dist ⟨1/2, 1/2⟩ ⟨1/2, 0⟩, 0⟩ := by
    norm_num [Noise.update, oneDNoise, Noise.new, sampleArgs, GameParams.reset,
      oneDClickInp, Vec2.cdiv]
  rw [hcl]
  simp only [Option.map_some']
  congr 1
  rw [Vec2.dist]
  have h1 : ((((1:ℚ)/2 - 1/2) ^ 2 + ((1:ℚ)/2 - 0) ^ 2 : ℚ) : ℝ) = (1/2 : ℝ) ^ 2 := by
    norm_num
  rw [h1, Real.sqrt_sq (by norm_num : (0:ℝ) ≤ 1/2)]

/-- C3 as stated is false at an explicit input: with signal_ramp_duration
zero, a fresh scene updated at elapsed 1/2 (frame length 1, so no
frame-index change yet) still has signal_progression 0, not 1. -/
theorem ramp_zero_not_always_one :
    rampZeroNoise.params.signal_ramp_duration = 0 ∧
    (rampZeroNoise.update idleHalfInp).params.signal_progression = 0 ∧
    (0 : ℝ) ≠ 1 := by
  refine ⟨rfl, ?_, by norm_num⟩
  norm_num [Noise.update, rampZeroNoise, Noise.new, rampZeroArgs, sampleArgs,
    GameParams.reset, idleHalfInp]

/-- C3 (amended): with signal_ramp_duration = 0 the per-tick progression
computation takes the constant branch — the division by
signal_ramp_duration * signal_max_strength is never evaluated — and any
searching tick whose discretized frame index differs from the stored
noise_frame sets signal_progression to exactly 1; ticks without a
frame-index change leave the previous progression in place. -/
theorem ramp_zero_full_strength :
    (∀ nf fl maxs : ℚ, progressionUpdate nf fl 0 maxs = 1) ∧
    (∀ (st : Noise) (inp : InputState),
      st.params.click_location = none →
      st.params.signal_ramp_duration = 0 →
      ((⌊(inp.now - st.params.start_time) / st.params.frame_length⌋ : ℤ) : ℚ) ≠
        st.params.noise_frame →
      (st.update inp).params.signal_progression = 1) := by
  constructor
  · intro nf fl maxs
    simp [progressionUpdate]
  · intro st inp hcl hramp hne
    by_cases hl : inp.leftJustPressed = true <;>
      simp [Noise.update, hcl, hne, hl, progressionUpdate, hramp]

/-- Witness for C3 (amended): the zero-ramp scene's first frame-index
change (elapsed 1, frame length 1) sets progression to exactly 1. -/
theorem ramp_zero_full_strength_holds :
    (rampZeroNoise.update idleOneInp).params.signal_progression = 1 :=
  ramp_zero_full_strength.2 rampZeroNoise idleOneInp rfl rfl
    (by norm_num [rampZeroNoise, Noise.new, rampZeroArgs, sampleArgs,
      GameParams.reset, idleOneInp, idleHalfInp])

/-- C6 at the failing input: a configuration with frame_length = 0 is
neither rejected nor guarded at construction: the scene is built
searching with frame_length stored as 0, and subsequent ticks evaluate
the frame discretization with the zero divisor — under the exact
arithmetic of the model every elapsed time collapses to frame index 0
(under f32 semantics the division yields infinity or NaN), the undefined
discretization the spec requires construction to prevent. -/
theorem frame_length_zero_unguarded :
    zeroFrameNoise.params.frame_length = 0 ∧
    zeroFrameNoise.params.click_location = none ∧
    (zeroFrameNoise.update idleOneInp).params.noise_frame = 0 ∧
    (zeroFrameNoise.update idleTwoInp).params.noise_frame = 0 := by
  refine ⟨rfl, rfl, ?_, ?_⟩ <;>
    norm_num [Noise.update, zeroFrameNoise, Noise.new, zeroFrameArgs, sampleArgs,
      GameParams.reset, idleOneInp, idleTwoInp, idleHalfInp]
